import Mathlib

/-!
Verification of the wiki revision-extraction pipeline (project-wiki).

This file shallowly embeds the Python sources and proves properties of the
embedding:

* `src/app/revision_processor.py` / `src/processor/revision_processor.py`
  (`WikipediaRevisionProcessor._parse_revision`, `.process`, `.detect_bot`);
* `src/main.py` (`main`, the sequential multi-file loop);
* `src/pipeline/parallel.py` / `src/main_parallel.py` (`process_single_file`
  and the summary classification in `main`);
* `src/utils/common.py` (`FileLock`, `is_completed`, `mark_completed`);
* a small-step transition system for several workers running
  `process_single_file` concurrently against one shared file.

Python strings are Lean `String`s, `Optional[str]` is `Option String`,
Python `int` is Lean `Int`.  Python truthiness of optional strings
(`not x` true for `None` and `""`) and of optional ints (`if x` false for
`None` and `0`) is made explicit in dedicated helper functions.
-/

namespace ProjectWiki

/-! ### String helpers

Kernel-reducible models of the Python string primitives used by the code:
`str.lower()` (ASCII range, which covers every indicator word checked),
the `in` substring test, and `int(...)` on an optional digit string
(sign and digits; other Python spellings such as surrounding whitespace
never arise in the claims and are modelled as a parse failure). -/

def charLower (c : Char) : Char :=
  if 65 ≤ c.toNat ∧ c.toNat ≤ 90 then Char.ofNat (c.toNat + 32) else c

def lowerStr (s : String) : String := String.mk (s.data.map charLower)

def strContainsAux (needle : List Char) : List Char → Bool
  | [] => needle.isPrefixOf []
  | c :: rest => needle.isPrefixOf (c :: rest) || strContainsAux needle rest

/-- Python `needle in hay` on strings. -/
def strContains (hay needle : String) : Bool := strContainsAux needle.data hay.data

def digitsToNatAux : Option Nat → List Char → Option Nat
  | acc, [] => acc
  | acc, c :: rest =>
      if 48 ≤ c.toNat ∧ c.toNat ≤ 57 then
        digitsToNatAux (some ((acc.getD 0) * 10 + (c.toNat - 48))) rest
      else none

/-- Python `int(s)` on a string: `some` value, or `none` when `int` raises. -/
def pyInt? (s : String) : Option Int :=
  match s.data with
  | '-' :: rest => (digitsToNatAux none rest).map (fun n => -(n : Int))
  | l => (digitsToNatAux none l).map (fun n => (n : Int))

/-- Python truthiness test `not x` for an `Optional[str]`:
true when the value is `None` or the empty string. -/
def pyStrFalsy (s : Option String) : Bool := s.getD "" == ""

/-- Python `int(prev) if prev else None` where `prev` is an optional int:
`None` and `0` are falsy. Transcribes the `parent_revision_id` argument in
`_parse_revision` (src/app/revision_processor.py line 114). -/
def pyOptInt (prev : Option Int) : Option Int :=
  match prev with
  | none => none
  | some v => if v = 0 then none else some v

/-- Python `int(user_id) if user_id else None` where `user_id` is an optional
string: `None`/`""` give `None`, otherwise `int()` which may raise
(`Except.error`). -/
def pyIntOpt (s : Option String) : Except Unit (Option Int) :=
  match s with
  | none => Except.ok none
  | some str =>
      if str = "" then Except.ok none
      else
        match pyInt? str with
        | some v => Except.ok (some v)
        | none => Except.error ()

/-! ### Data model (src/domain/models.py)

`RevisionRecord` transcribes the dataclass field for field.  Note that the
dataclass has a `comment` field and **no** `is_bot` field. -/

structure RevisionRecord where
  page_id : Int
  page_title : String
  revision_id : Int
  parent_revision_id : Option Int
  timestamp : String
  user_id : Option Int
  username : Option String
  is_anonymous : Bool
  comment : String
  raw_text_len : Nat
  clean_text_len : Nat
  clean_text : String
deriving DecidableEq, Repr

/-! ### XML element shapes

One `<contributor>` block and one `<revision>` item, as observed through the
`findtext` calls of `_parse_revision`; `none` models a missing sub-element. -/

structure Contributor where
  cid : Option String
  username : Option String
  ip : Option String
deriving DecidableEq, Repr

structure Item where
  revId : Option String
  timestamp : Option String
  text : Option String
  contributor : Option Contributor
  comment : Option String
deriving DecidableEq, Repr

/-- One `<page>` container: `ns`/`id`/`title` texts plus the revision items.
`pageId` is kept already converted (pages with an unparseable id abort the
stream before any revision work and play no role in the claims). -/
structure Page where
  ns : Option String
  pageId : Int
  title : String
  revisions : List Item
deriving DecidableEq, Repr

/-- Outcome of `_parse_revision` on one item: an uncaught exception (`err`),
a silent drop (`skip`, the `return None` path), or an emitted record. -/
inductive ParseOutcome where
  | err : ParseOutcome
  | skip : ParseOutcome
  | emit : RevisionRecord → ParseOutcome
deriving DecidableEq, Repr

/-- `WikipediaRevisionProcessor._parse_revision`
(src/app/revision_processor.py lines 90-123).  The wikitext cleaner
`normalize_text` is the external `Clean` collaborator and is a parameter. -/
def parseRevision (clean : String → String) (pageId : Int) (title : String)
    (prev : Option Int) (it : Item) : ParseOutcome :=
  let raw_text := it.text.getD ""
  let cleanT := clean raw_text
  if cleanT = "" || pyStrFalsy it.timestamp then .skip
  else
    -- contributor block: user_id/username strings and the anonymity flag
    let user_id_s : Option String := it.contributor.bind (fun c => c.cid)
    let nameFields : Option String × Bool :=
      match it.contributor with
      | none => (none, false)
      | some c =>
          match c.username with
          | some u => (some u, false)
          | none => (c.ip, true)
    -- record construction: int(rev_id) and int(user_id) may raise
    match it.revId with
    | none => .err
    | some rs =>
        match pyInt? rs with
        | none => .err
        | some rid =>
            match pyIntOpt user_id_s with
            | Except.error _ => .err
            | Except.ok uid =>
                .emit {
                  page_id := pageId
                  page_title := title
                  revision_id := rid
                  parent_revision_id := pyOptInt prev
                  timestamp := it.timestamp.getD ""
                  user_id := uid
                  username := nameFields.1
                  is_anonymous := nameFields.2
                  comment := it.comment.getD ""
                  raw_text_len := raw_text.length
                  clean_text_len := (clean raw_text).length
                  clean_text := clean raw_text }

/-- The revision loop of `WikipediaRevisionProcessor.process`
(src/app/revision_processor.py lines 59-80): fold the items of one page with
the `prev_revision_id` accumulator.  Returns the emitted records in order and
whether an exception aborted the loop (records written before the exception
stay written; `prev_revision_id` is updated only on emission, so a skipped
item does not disturb the chain). -/
def processItems (clean : String → String) (pageId : Int) (title : String) :
    Option Int → List Item → List RevisionRecord × Bool
  | _, [] => ([], false)
  | prev, it :: rest =>
      match parseRevision clean pageId title prev it with
      | .err => ([], true)
      | .skip => processItems clean pageId title prev rest
      | .emit r =>
          let tl := processItems clean pageId title (some r.revision_id) rest
          (r :: tl.1, tl.2)

/-- All records emitted for one page: `prev_revision_id` starts at `None`
(src/app/revision_processor.py line 57), i.e. the chain resets at every page
boundary. -/
def pageRecords (clean : String → String) (p : Page) :
    List RevisionRecord × Bool :=
  processItems clean p.pageId p.title none p.revisions

/-! ### Single-File Processor (src/app/revision_processor.py, `process`) -/

/-- Mutable state of a `WikipediaRevisionProcessor` (page/revision counters,
`finished` flag) together with everything written to the output sink so far
and whether an uncaught exception aborted the run. -/
@[ext]
structure ProcState where
  page_count : Nat
  revision_count : Nat
  finished : Bool
  output : List RevisionRecord
  errored : Bool
deriving DecidableEq, Repr

def initState : ProcState := ⟨0, 0, false, [], false⟩

/-- The guard `if self.max_pages and self.page_count >= self.max_pages`
(src/app/revision_processor.py line 46): `max_pages` of `None` or `0` is
falsy, anything else is compared against the page counter. -/
def pyCeil (maxPages : Option Int) (count : Nat) : Bool :=
  match maxPages with
  | none => false
  | some m => !(m = 0) && (m ≤ (count : Int))

def pageQualifies (p : Page) : Bool := p.ns == some "0"

/-- `WikipediaRevisionProcessor.process` (src/app/revision_processor.py
lines 33-87) on the sequence of `<page>` containers of one stream:
non-content pages (`ns != "0"`) are discarded before the ceiling check; when
the ceiling is hit the method returns at once (`finished := true`, rest of
the stream abandoned); an exception inside a page propagates out, keeping
the records written so far but not incrementing the page counter. -/
def processStream (clean : String → String) (maxPages : Option Int) :
    List Page → ProcState → ProcState
  | [], s => s
  | p :: rest, s =>
      if !pageQualifies p then processStream clean maxPages rest s
      else if pyCeil maxPages s.page_count then { s with finished := true }
      else
        let recs := pageRecords clean p
        if recs.2 then
          { s with
              output := s.output ++ recs.1
              revision_count := s.revision_count + recs.1.length
              errored := true }
        else
          processStream clean maxPages rest
            { s with
                output := s.output ++ recs.1
                revision_count := s.revision_count + recs.1.length
                page_count := s.page_count + 1 }

/-- The file loop of `main` (src/main.py lines 109-121): one shared
processor; each iteration first checks `processor.finished` and breaks.  An
exception would propagate out of `main`, so an errored state also stops the
loop. -/
def mainLoop (clean : String → String) (maxPages : Option Int) :
    List (List Page) → ProcState → ProcState
  | [], s => s
  | f :: fs, s =>
      if s.finished || s.errored then s
      else mainLoop clean maxPages fs (processStream clean maxPages f s)

/-! ### Bot classification (src/processor/revision_processor.py,
`WikipediaRevisionProcessor.detect_bot`, lines 146-157) -/

def bot_indicators : List String := ["bot", "auto", "script", "crawler", "spider"]

/-- Python `username in self.bot_list` where `username` may be `None`
(`None` is never an element of a set of strings). -/
def inBotList (botList : List String) (username : Option String) : Bool :=
  match username with
  | some u => botList.contains u
  | none => false

/-- `detect_bot(username, comment)` against the externally supplied
known-bots set `botList`. -/
def detect_bot (botList : List String) (username comment : Option String) : Bool :=
  if pyStrFalsy username && pyStrFalsy comment then false
  else if inBotList botList username then true
  else
    let u := lowerStr (username.getD "")
    let c := lowerStr (comment.getD "")
    bot_indicators.any (fun ind => strContains u ind || strContains c ind)

/-- Modelled from the spec's words (§4.2 bot classification), for comparison
with `detect_bot`: the author is a bot iff the display name exactly matches
an entry of the known-bots set, or a case-insensitive substring match of an
indicator word occurs in the display name or the comment. -/
def spec_is_bot (botList : List String) (username comment : Option String) : Bool :=
  inBotList botList username
    || bot_indicators.any (fun ind =>
        strContains (lowerStr (username.getD "")) ind
          || strContains (lowerStr (comment.getD "")) ind)

/-! ### Record field inventory (claim about the emitted data model)

The field names of the `RevisionRecord` dataclass (src/domain/models.py
lines 9-23) and the keyword arguments of the two `RevisionRecord(...)`
constructor calls (src/app/revision_processor.py lines 110-123 and
src/processor/revision_processor.py lines 131-144), in source order. -/

def revisionRecordFields : List String :=
  ["page_id", "page_title", "revision_id", "parent_revision_id", "timestamp",
   "user_id", "username", "is_anonymous", "comment", "raw_text_len",
   "clean_text_len", "clean_text"]

def appRecordKwargs : List String :=
  ["page_id", "page_title", "revision_id", "parent_revision_id", "timestamp",
   "user_id", "username", "is_anonymous", "comment", "raw_text_len",
   "clean_text_len", "clean_text"]

def processorRecordKwargs : List String :=
  ["page_id", "page_title", "revision_id", "parent_revision_id", "timestamp",
   "user_id", "username", "is_anonymous", "is_bot", "raw_text_len",
   "clean_text_len", "clean_text"]

/-! ### Coordination layer, sequential view
(`process_single_file`, src/pipeline/parallel.py lines 24-127, identical in
src/main_parallel.py lines 130-233) -/

/-- What the Single-File Processor does once invoked: terminates normally
with its counters, or raises. -/
inductive ProcOutcome where
  | ok : Nat → Nat → ProcOutcome
  | exc : String → ProcOutcome
deriving DecidableEq, Repr

/-- Environment of one `process_single_file` call: what each filesystem
observation returns, in program order (`is_completed` before locking,
`FileLock.acquire`, `is_completed` again after locking), the processor
outcome, and the measured elapsed time. -/
structure Env where
  markerAtStart : Bool
  lockAcquired : Bool
  markerAfterLock : Bool
  outcome : ProcOutcome
  elapsed : Nat
deriving DecidableEq, Repr

/-- `ProcessingResult` (src/utils/common.py lines 10-18). -/
structure PResult where
  file_path : String
  success : Bool
  page_count : Nat
  revision_count : Nat
  elapsed_seconds : Nat
  error : Option String
deriving DecidableEq, Repr

/-- Externally visible side effects of one `process_single_file` call:
whether the processor ran (per-file output written), whether
`mark_completed` wrote the `.done` marker, whether the lock was acquired,
and whether `FileLock.release` ran (drops the flock and unlinks the `.lock`
artifact; it is called in the `finally` block). -/
structure Effects where
  processorRan : Bool
  markerWritten : Bool
  lockTaken : Bool
  lockReleased : Bool
deriving DecidableEq, Repr

/-- `process_single_file` (src/pipeline/parallel.py lines 24-127). -/
def process_single_file (file : String) (e : Env) : PResult × Effects :=
  if e.markerAtStart then
    (⟨file, true, 0, 0, 0, some "Already completed (skipped)"⟩,
     ⟨false, false, false, false⟩)
  else if !e.lockAcquired then
    (⟨file, false, 0, 0, 0,
      some "Could not acquire lock (another process is handling)"⟩,
     ⟨false, false, false, false⟩)
  else if e.markerAfterLock then
    (⟨file, true, 0, 0, 0, some "Already completed (skipped after lock)"⟩,
     ⟨false, false, true, true⟩)
  else
    match e.outcome with
    | .ok pages revs =>
        (⟨file, true, pages, revs, e.elapsed, none⟩,
         ⟨true, true, true, true⟩)
    | .exc msg =>
        (⟨file, false, 0, 0, e.elapsed, some msg⟩,
         ⟨true, false, true, true⟩)

/-- The aggregate-summary buckets of `main` (src/main_parallel.py lines
326-328): `successful` are results with `success` and no error text,
`skipped` have `success` with an error text, `failed` are the rest. -/
inductive Category where
  | processed : Category
  | skipped : Category
  | failed : Category
deriving DecidableEq, Repr

def classify (r : PResult) : Category :=
  if r.success && r.error.isNone then .processed
  else if r.success then .skipped
  else .failed

/-- `FileState` of the spec (§3): derived from the marker and the lock. -/
inductive FileState where
  | pending : FileState
  | locked : FileState
  | completed : FileState
deriving DecidableEq, Repr

def fileState (markerExists lockHeld : Bool) : FileState :=
  if markerExists then .completed else if lockHeld then .locked else .pending

/-! ### Coordination layer, concurrent view

Several workers (same or different `main_parallel` instances) run
`process_single_file` for the *same* file against one shared marker
directory.  The shared mutable state is the `.done` marker and the `.lock`
path.  `FileLock` (src/utils/common.py lines 21-59) is modelled at the
filesystem level: `acquire` first runs `open(lock_path, "w")` — which opens
the inode currently linked at the path, or creates and links a fresh inode
when the path is empty — and then attempts `flock(LOCK_EX | LOCK_NB)` on
*that inode*; the flock fails exactly when some other process holds a flock
on the same inode (closing the descriptor on failure releases nothing,
since nothing was acquired).  `release` is two separate filesystem steps in
program order: `flock(LOCK_UN)` + `close` (dropping the caller's flock),
and then `os.unlink(lock_path)` in the `finally`, which removes whatever
link is *currently* at the path (errors, e.g. an already-absent path, are
swallowed).  An unlinked inode keeps existing for processes that still hold
a descriptor for it, so a flock on it remains valid.  Each worker is a
small program counter walking the control flow of `process_single_file`;
it terminates in `done r` where `r` records the result it returns. -/

inductive LRes where
  | skipDone : LRes        -- "Already completed (skipped)"
  | skipLock : LRes        -- "Could not acquire lock (another process is handling)"
  | skipAfterLock : LRes   -- "Already completed (skipped after lock)"
  | succeeded : LRes       -- processed, marker written
  | failed : LRes          -- exception during processing, no marker
deriving DecidableEq, Repr

inductive LPc where
  | start : LPc              -- about to run the first is_completed check
  | openLock : LPc           -- marker absent, about to open(lock_path, "w")
  | tryFlock : Nat → LPc     -- holds a descriptor for this inode, about to flock
  | recheck : LPc            -- flock held, about to re-check the marker
  | processing : LPc         -- flock held, marker was absent, processor runs
  | unlock : LRes → LPc      -- result decided, about to LOCK_UN + close
  | unlink : LRes → LPc      -- flock dropped, about to os.unlink(lock_path)
  | done : LRes → LPc        -- returned
deriving DecidableEq, Repr

/-- Shared filesystem state plus per-worker control state.  `pathIno` is
the inode currently linked at the `.lock` path (`none` when no file is
there), `nextIno` supplies fresh inode numbers, and `hold i` is the inode
worker `i` currently holds an exclusive flock on. -/
structure FSys (n : Nat) where
  pathIno : Option Nat
  nextIno : Nat
  hold : Fin n → Option Nat
  marker : Bool
  pc : Fin n → LPc

/-- Interleaving small-step semantics of `n` workers running
`process_single_file` on one file (src/pipeline/parallel.py lines 24-127,
src/utils/common.py lines 21-88), with `FileLock.acquire`/`release` at the
granularity of their filesystem operations. -/
inductive FStep (n : Nat) : FSys n → FSys n → Prop where
  | seeMarker (i : Fin n) (s : FSys n) :
      s.pc i = .start → s.marker = true →
      FStep n s { s with pc := Function.update s.pc i (.done .skipDone) }
  | noMarker (i : Fin n) (s : FSys n) :
      s.pc i = .start → s.marker = false →
      FStep n s { s with pc := Function.update s.pc i .openLock }
  | openExisting (i : Fin n) (k : Nat) (s : FSys n) :
      s.pc i = .openLock → s.pathIno = some k →
      FStep n s { s with pc := Function.update s.pc i (.tryFlock k) }
  | openCreate (i : Fin n) (s : FSys n) :
      s.pc i = .openLock → s.pathIno = none →
      FStep n s { s with pathIno := some s.nextIno,
                         nextIno := s.nextIno + 1,
                         pc := Function.update s.pc i (.tryFlock s.nextIno) }
  | flockOk (i : Fin n) (k : Nat) (s : FSys n) :
      s.pc i = .tryFlock k →
      (∀ j, j ≠ i → s.hold j ≠ some k) →
      FStep n s { s with hold := Function.update s.hold i (some k),
                         pc := Function.update s.pc i .recheck }
  | flockFail (i : Fin n) (k : Nat) (j : Fin n) (s : FSys n) :
      s.pc i = .tryFlock k → j ≠ i → s.hold j = some k →
      FStep n s { s with pc := Function.update s.pc i (.done .skipLock) }
  | recheckHit (i : Fin n) (s : FSys n) :
      s.pc i = .recheck → s.marker = true →
      FStep n s { s with pc := Function.update s.pc i (.unlock .skipAfterLock) }
  | recheckMiss (i : Fin n) (s : FSys n) :
      s.pc i = .recheck → s.marker = false →
      FStep n s { s with pc := Function.update s.pc i .processing }
  | finishOk (i : Fin n) (s : FSys n) :
      s.pc i = .processing →
      FStep n s { s with marker := true,
                         pc := Function.update s.pc i (.unlock .succeeded) }
  | finishExc (i : Fin n) (s : FSys n) :
      s.pc i = .processing →
      FStep n s { s with pc := Function.update s.pc i (.unlock .failed) }
  | unlockGo (i : Fin n) (r : LRes) (s : FSys n) :
      s.pc i = .unlock r →
      FStep n s { s with hold := Function.update s.hold i none,
                         pc := Function.update s.pc i (.unlink r) }
  | unlinkGo (i : Fin n) (r : LRes) (s : FSys n) :
      s.pc i = .unlink r →
      FStep n s { s with pathIno := none,
                         pc := Function.update s.pc i (.done r) }

/-- All workers at the first marker check, no lock file, marker state `m`. -/
def initFSys (n : Nat) (m : Bool) : FSys n :=
  ⟨none, 0, fun _ => none, m, fun _ => .start⟩

def FReach (n : Nat) (m : Bool) (s : FSys n) : Prop :=
  Relation.ReflTransGen (FStep n) (initFSys n m) s

/-! ### Concrete inputs used by the witnesses and counterexamples -/

/-- Page whose first revision has id `0`: both items are valid (timestamp
present, non-empty text), so both are emitted. -/
def cexItemA : Item := ⟨some "0", some "2020-01-01T00:00:00Z", some "alpha", none, none⟩

def cexItemB : Item := ⟨some "5", some "2020-01-02T00:00:00Z", some "beta", none, none⟩

def cexPage : Page := ⟨some "0", 7, "T", [cexItemA, cexItemB]⟩

/-- Item with a missing timestamp (dropped by the guard). -/
def witItemNoTs : Item := ⟨some "9", none, some "hello", none, none⟩

/-- A qualifying single-revision page with revision id `k`. -/
def mkQualPage (ridstr : String) (pid : Int) : Page :=
  ⟨some "0", pid, "P", [⟨some ridstr, some "ts", some "body", none, none⟩]⟩

/-- A file of 5 qualifying pages (ceiling scenario of the spec). -/
def c3pages : List Page :=
  [mkQualPage "1" 1, mkQualPage "2" 2, mkQualPage "3" 3,
   mkQualPage "4" 4, mkQualPage "5" 5]

/-- Environment: no marker, lock contention. -/
def c6env : Env := ⟨false, false, false, .ok 0 0, 0⟩

/-- Environment: marker already present at the first check. -/
def c4env : Env := ⟨true, false, false, .ok 0 0, 0⟩

/-- Environment: lock acquired, marker absent, processing raises. -/
def c5env : Env := ⟨false, true, false, .exc "boom", 3⟩

/-- The lock-file recreation race, three workers on one file, no marker.
Worker 0 creates the lock file (inode 0), flocks it, starts processing and
raises; its release drops the flock (`LOCK_UN` + `close`) but has not yet
unlinked.  Worker 1 opens the still-linked inode 0 and flocks it (free
again).  Worker 0 then unlinks the path and returns its failure.  Worker
2's `open` now *creates a fresh inode 1* at the empty path and flocks it.
Both worker 1 and worker 2 hold an exclusive flock — on different inodes —
re-check the marker (still absent), process the file concurrently, write
the marker, release, and both return success. -/
def race0 : FSys 3 := initFSys 3 false

def race1 : FSys 3 := { race0 with pc := Function.update race0.pc 0 .openLock }

def race2 : FSys 3 :=
  { race1 with pathIno := some race1.nextIno, nextIno := race1.nextIno + 1,
               pc := Function.update race1.pc 0 (.tryFlock race1.nextIno) }

def race3 : FSys 3 :=
  { race2 with hold := Function.update race2.hold 0 (some 0),
               pc := Function.update race2.pc 0 .recheck }

def race4 : FSys 3 := { race3 with pc := Function.update race3.pc 0 .processing }

def race5 : FSys 3 :=
  { race4 with pc := Function.update race4.pc 0 (.unlock .failed) }

def race6 : FSys 3 :=
  { race5 with hold := Function.update race5.hold 0 none,
               pc := Function.update race5.pc 0 (.unlink .failed) }

def race7 : FSys 3 := { race6 with pc := Function.update race6.pc 1 .openLock }

def race8 : FSys 3 := { race7 with pc := Function.update race7.pc 1 (.tryFlock 0) }

def race9 : FSys 3 :=
  { race8 with hold := Function.update race8.hold 1 (some 0),
               pc := Function.update race8.pc 1 .recheck }

def race10 : FSys 3 :=
  { race9 with pathIno := none, pc := Function.update race9.pc 0 (.done .failed) }

def race11 : FSys 3 := { race10 with pc := Function.update race10.pc 2 .openLock }

def race12 : FSys 3 :=
  { race11 with pathIno := some race11.nextIno, nextIno := race11.nextIno + 1,
                pc := Function.update race11.pc 2 (.tryFlock race11.nextIno) }

def race13 : FSys 3 :=
  { race12 with hold := Function.update race12.hold 2 (some 1),
                pc := Function.update race12.pc 2 .recheck }

def race14 : FSys 3 := { race13 with pc := Function.update race13.pc 1 .processing }

def race15 : FSys 3 := { race14 with pc := Function.update race14.pc 2 .processing }

def race16 : FSys 3 :=
  { race15 with marker := true,
                pc := Function.update race15.pc 1 (.unlock .succeeded) }

def race17 : FSys 3 :=
  { race16 with marker := true,
                pc := Function.update race16.pc 2 (.unlock .succeeded) }

def race18 : FSys 3 :=
  { race17 with hold := Function.update race17.hold 1 none,
                pc := Function.update race17.pc 1 (.unlink .succeeded) }

def race19 : FSys 3 :=
  { race18 with pathIno := none,
                pc := Function.update race18.pc 1 (.done .succeeded) }

def race20 : FSys 3 :=
  { race19 with hold := Function.update race19.hold 2 none,
                pc := Function.update race19.pc 2 (.unlink .succeeded) }

def race21 : FSys 3 :=
  { race20 with pathIno := none,
                pc := Function.update race20.pc 2 (.done .succeeded) }

/-! ### Lineage lemmas (Record Builder) -/

lemma parseRevision_emit_parent {clean : String → String} {pid : Int}
    {title : String} {prev : Option Int} {it : Item} {r : RevisionRecord}
    (h : parseRevision clean pid title prev it = .emit r) :
    r.parent_revision_id = pyOptInt prev := by
  simp only [parseRevision] at h
  repeat' split at h
  all_goals injection h
  all_goals rename_i h
  all_goals rw [← h]

/-- The parent pointers of the records emitted from one item list, starting
from accumulator `prev`, are: `pyOptInt prev` for the first record, and
`pyOptInt (some previous-record-id)` afterwards. -/
lemma processItems_parent_chain (clean : String → String) (pid : Int)
    (title : String) (items : List Item) (prev : Option Int) :
    (processItems clean pid title prev items).1.map
        (fun r => r.parent_revision_id)
      = (pyOptInt prev ::
          (processItems clean pid title prev items).1.map
            (fun r => pyOptInt (some r.revision_id))).take
          (processItems clean pid title prev items).1.length := by
  induction items generalizing prev with
  | nil => simp [processItems]
  | cons it rest ih =>
      cases hp : parseRevision clean pid title prev it with
      | err => simp [processItems, hp]
      | skip =>
          simp only [processItems, hp]
          exact ih prev
      | emit r =>
          have hpar := parseRevision_emit_parent hp
          simp only [processItems, hp, List.map_cons, List.length_cons,
            List.take_succ_cons, hpar]
          exact congrArg (List.cons (pyOptInt prev)) (ih (some r.revision_id))

/-- C1 (amended): for the records emitted for one page, the first record's
`parent_revision_id` is `null` (reset at the page boundary), and the Nth
record's `parent_revision_id` is `pyOptInt` of the N−1th emitted record's
revision id — equal to that id whenever the id is non-zero, but `null` when
the previous emitted revision id is `0` (Python truthiness of
`int(prev_revision_id) if prev_revision_id else None`).  Skipped items do
not participate: the accumulator advances only on emission. -/
theorem c1_parent_chain_amended (clean : String → String) (p : Page) :
    (pageRecords clean p).1.map (fun r => r.parent_revision_id)
      = ((none : Option Int) ::
          (pageRecords clean p).1.map
            (fun r => pyOptInt (some r.revision_id))).take
          (pageRecords clean p).1.length := by
  have h := processItems_parent_chain clean p.pageId p.title p.revisions none
  simpa [pageRecords, pyOptInt] using h

/-- C1 (counterexample to the claim as stated): a page whose two emitted
revisions have ids `0` and `5`.  The claim requires the second record's
`parent_revision_id` to be the first record's revision id (`some 0`), but
the code produces `none`. -/
theorem c1_parent_chain_cex :
    ((pageRecords (fun s => s) cexPage).1.map (fun r => r.revision_id) = [0, 5]
      ∧ (pageRecords (fun s => s) cexPage).1.map
          (fun r => r.parent_revision_id) = [none, none])
    ∧ (pageRecords (fun s => s) cexPage).1.map
          (fun r => r.parent_revision_id) ≠ [none, some 0] := by
  decide

/-- C2: an item whose cleaned text is empty or whose timestamp is missing
produces the `skip` outcome (not an error), and the revision loop treats it
as a no-op: no record is emitted for it, the output and the error flag are
those of the remaining items, and (since the revision counter advances by
the number of emitted records) the counter is not incremented for it. -/
theorem c2_drop_skips (clean : String → String) (pid : Int) (title : String)
    (prev : Option Int) (it : Item) (rest : List Item)
    (h : clean (it.text.getD "") = "" ∨ pyStrFalsy it.timestamp = true) :
    parseRevision clean pid title prev it = .skip
      ∧ processItems clean pid title prev (it :: rest)
          = processItems clean pid title prev rest := by
  have hs : parseRevision clean pid title prev it = .skip := by
    unfold parseRevision
    rcases h with h | h
    · simp [h]
    · simp [h]
  exact ⟨hs, by simp [processItems, hs]⟩

theorem c2_drop_skips_witness :
    ((fun (s : String) => s) (witItemNoTs.text.getD "") = ""
        ∨ pyStrFalsy witItemNoTs.timestamp = true)
      ∧ (parseRevision (fun s => s) 3 "W" none witItemNoTs = .skip
        ∧ processItems (fun s => s) 3 "W" none [witItemNoTs]
            = processItems (fun s => s) 3 "W" none []) :=
  ⟨Or.inr (by decide),
   c2_drop_skips (fun s => s) 3 "W" none witItemNoTs [] (Or.inr (by decide))⟩

/-! ### Single-File Processor: ceiling behaviour -/

/-- Characterization of one `process` run with a positive ceiling `m`,
starting from a clean (not finished, not errored) state whose page counter
is at most `m`: exactly the first `m - page_count` qualifying pages are
emitted, the counter saturates at `m`, and `finished` is set iff a further
qualifying page was encountered. -/
lemma processStream_run (clean : String → String) (m : Nat) (hm : 0 < m)
    (pages : List Page) (s : ProcState)
    (hfin : s.finished = false) (herr : s.errored = false)
    (hcnt : s.page_count ≤ m)
    (hne : ∀ p ∈ pages, pageQualifies p = true → (pageRecords clean p).2 = false) :
    processStream clean (some (m : Int)) pages s =
      { page_count := min m (s.page_count + (pages.filter pageQualifies).length)
        revision_count := s.revision_count
          + (((pages.filter pageQualifies).take (m - s.page_count)).flatMap
              (fun p => (pageRecords clean p).1)).length
        finished := decide (m < s.page_count + (pages.filter pageQualifies).length)
        output := s.output
          ++ ((pages.filter pageQualifies).take (m - s.page_count)).flatMap
              (fun p => (pageRecords clean p).1)
        errored := false } := by
  induction pages generalizing s with
  | nil =>
      simp only [processStream, List.filter_nil, List.length_nil,
        Nat.add_zero, List.take_nil, List.flatMap_nil, List.append_nil]
      ext <;> dsimp only <;>
        first
          | omega
          | exact herr
          | (rw [hfin, eq_comm, decide_eq_false_iff_not]; omega)
          | simp
  | cons p rest ih =>
      by_cases hq : pageQualifies p = true
      · -- qualifying page: ceiling check, then the revision loop
        have hceil : pyCeil (some (m : Int)) s.page_count
            = decide (m ≤ s.page_count) := by
          have h0 : ¬ ((m : Int) = 0) := by
            simp only [Int.natCast_eq_zero]
            omega
          have h1 : ((m : Int) ≤ (s.page_count : Int)) = (m ≤ s.page_count) := by
            simp [Int.ofNat_le]
          simp [pyCeil, h0, h1]
        by_cases hc : s.page_count = m
        · -- ceiling reached: stop at once
          have hct : pyCeil (some (m : Int)) s.page_count = true := by
            rw [hceil]; simp [hc]
          simp only [processStream, hq, Bool.not_true, Bool.false_eq_true,
            if_false, hct, if_true, List.filter_cons_of_pos hq,
            List.length_cons]
          ext
          · dsimp only; omega
          · dsimp only
            rw [hc, Nat.sub_self, List.take_zero, List.flatMap_nil,
              List.length_nil, Nat.add_zero]
          · dsimp only
            rw [eq_comm, decide_eq_true_iff]
            omega
          · dsimp only
            rw [hc, Nat.sub_self, List.take_zero, List.flatMap_nil,
              List.append_nil]
          · dsimp only; exact herr
        · -- counter below ceiling: process the page and recurse
          have hlt : s.page_count < m := Nat.lt_of_le_of_ne hcnt hc
          have hcf : pyCeil (some (m : Int)) s.page_count = false := by
            rw [hceil, decide_eq_false_iff_not]
            omega
          have hpe : (pageRecords clean p).2 = false :=
            hne p (List.mem_cons_self p rest) hq
          simp only [processStream, hq, Bool.not_true, Bool.false_eq_true,
            if_false, hcf, hpe]
          rw [ih (ProcState.mk (s.page_count + 1)
                (s.revision_count + (pageRecords clean p).1.length)
                s.finished (s.output ++ (pageRecords clean p).1) s.errored)
              hfin herr hlt
              (fun q hqmem hqq => hne q (List.mem_cons_of_mem p hqmem) hqq)]
          have htake : m - s.page_count
              = (m - (s.page_count + 1)) + 1 := by omega
          simp only [List.filter_cons_of_pos hq, List.length_cons]
          ext
          · dsimp only; omega
          · dsimp only
            rw [htake, List.take_succ_cons, List.flatMap_cons,
              List.length_append]
            omega
          · dsimp only
            rw [decide_eq_decide]
            omega
          · dsimp only
            rw [htake, List.take_succ_cons, List.flatMap_cons,
              ← List.append_assoc]
          · rfl
      · -- non-qualifying page: discarded before the ceiling check
        have hq' : pageQualifies p = false := by
          cases h : pageQualifies p
          · rfl
          · exact absurd h hq
        simp only [processStream, hq', Bool.not_false, if_true]
        rw [ih _ hfin herr hcnt
            (fun q hqmem hqq => hne q (List.mem_cons_of_mem p hqmem) hqq)]
        simp [List.filter_cons_of_neg, hq']

/-- C3: with a positive page ceiling `m`, (i) the Single-File Processor
emits exactly the revisions of the first `m` qualifying pages of the stream
and stops there, (ii) the distinguished `finished` flag is set exactly when
a qualifying page beyond the ceiling exists (the processor stopped early),
and (iii) once `finished` is set, the file loop of `main` processes no
subsequent file at all.  Instantiated by the witness at ceiling 2 on a file
of 5 qualifying pages: exactly the first 2 pages' revisions appear. -/
theorem c3_page_ceiling (clean : String → String) (m : Nat) (hm : 0 < m)
    (pages : List Page)
    (hne : ∀ p ∈ pages, pageQualifies p = true → (pageRecords clean p).2 = false) :
    ((processStream clean (some (m : Int)) pages initState).output
        = ((pages.filter pageQualifies).take m).flatMap
            (fun p => (pageRecords clean p).1)
      ∧ (processStream clean (some (m : Int)) pages initState).finished
          = decide (m < (pages.filter pageQualifies).length))
    ∧ (∀ (files : List (List Page)) (s : ProcState), s.finished = true →
        mainLoop clean (some (m : Int)) files s = s) := by
  have h := processStream_run clean m hm pages initState rfl rfl
    (Nat.zero_le m) hne
  refine ⟨⟨?_, ?_⟩, ?_⟩
  · rw [h]; simp [initState]
  · rw [h]; simp [initState]
  · intro files s hf
    cases files with
    | nil => rfl
    | cons f fs => simp [mainLoop, hf]

theorem c3_page_ceiling_witness :
    (0 < 2
      ∧ ∀ p ∈ c3pages, pageQualifies p = true
          → (pageRecords (fun s => s) p).2 = false)
    ∧ (((processStream (fun s => s) (some ((2 : Nat) : Int)) c3pages
            initState).output
        = ((c3pages.filter pageQualifies).take 2).flatMap
            (fun p => (pageRecords (fun s => s) p).1)
      ∧ (processStream (fun s => s) (some ((2 : Nat) : Int)) c3pages
            initState).finished
          = decide (2 < (c3pages.filter pageQualifies).length))
    ∧ (∀ (files : List (List Page)) (s : ProcState), s.finished = true →
        mainLoop (fun s => s) (some ((2 : Nat) : Int)) files s = s)) :=
  ⟨⟨by decide, by decide⟩,
   c3_page_ceiling (fun s => s) 2 (by decide) c3pages (by decide)⟩

/-- C10: a configured ceiling of exactly `0` is Python-falsy in the guard
`if self.max_pages and ...`, so the processor behaves exactly as if no
ceiling were configured: every page is processed, nothing stops before the
first one. -/
theorem c10_zero_ceiling_no_limit (clean : String → String)
    (pages : List Page) (s : ProcState) :
    processStream clean (some 0) pages s = processStream clean none pages s := by
  induction pages generalizing s with
  | nil => rfl
  | cons p rest ih =>
      by_cases hq : pageQualifies p = true
      · by_cases he : (pageRecords clean p).2 = true
        · simp [processStream, hq, pyCeil, he]
        · simp only [Bool.not_eq_true] at he
          simp [processStream, hq, pyCeil, he, ih]
      · have hq' : pageQualifies p = false := by
          cases h : pageQualifies p
          · rfl
          · exact absurd h hq
        simp [processStream, hq', ih]

/-! ### Coordination layer: per-call properties -/

lemma psf_release_eq_taken (file : String) (e : Env) :
    (process_single_file file e).2.lockReleased
      = (process_single_file file e).2.lockTaken := by
  unfold process_single_file
  split
  · rfl
  · split
    · rfl
    · split
      · rfl
      · cases e.outcome <;> rfl

/-- C4: a file already bearing a completion marker — whether detected by
the pre-lock check or by the re-check after lock acquisition — yields a
successful "already completed" skip result with zero page and revision
counts; the processor does not run (no output written), no marker is
written, on the pre-lock path no lock is taken, and any lock that was taken
is released again. -/
theorem c4_already_completed_skip (file : String) (e : Env)
    (h : e.markerAtStart = true
        ∨ (e.markerAtStart = false ∧ e.lockAcquired = true
            ∧ e.markerAfterLock = true)) :
    ((process_single_file file e).1.success = true
      ∧ (process_single_file file e).1.page_count = 0
      ∧ (process_single_file file e).1.revision_count = 0
      ∧ ((process_single_file file e).1.error
            = some "Already completed (skipped)"
          ∨ (process_single_file file e).1.error
            = some "Already completed (skipped after lock)")
      ∧ classify (process_single_file file e).1 = .skipped)
    ∧ ((process_single_file file e).2.processorRan = false
      ∧ (process_single_file file e).2.markerWritten = false
      ∧ (e.markerAtStart = true
          → (process_single_file file e).2.lockTaken = false)
      ∧ ((process_single_file file e).2.lockTaken = true
          → (process_single_file file e).2.lockReleased = true)) := by
  rcases h with h | ⟨h1, h2, h3⟩
  · simp [process_single_file, h, classify]
  · simp [process_single_file, h1, h2, h3, classify]

theorem c4_already_completed_skip_witness :
    (c4env.markerAtStart = true
        ∨ (c4env.markerAtStart = false ∧ c4env.lockAcquired = true
            ∧ c4env.markerAfterLock = true))
    ∧ (((process_single_file "f" c4env).1.success = true
      ∧ (process_single_file "f" c4env).1.page_count = 0
      ∧ (process_single_file "f" c4env).1.revision_count = 0
      ∧ ((process_single_file "f" c4env).1.error
            = some "Already completed (skipped)"
          ∨ (process_single_file "f" c4env).1.error
            = some "Already completed (skipped after lock)")
      ∧ classify (process_single_file "f" c4env).1 = .skipped)
    ∧ ((process_single_file "f" c4env).2.processorRan = false
      ∧ (process_single_file "f" c4env).2.markerWritten = false
      ∧ (c4env.markerAtStart = true
          → (process_single_file "f" c4env).2.lockTaken = false)
      ∧ ((process_single_file "f" c4env).2.lockTaken = true
          → (process_single_file "f" c4env).2.lockReleased = true))) :=
  ⟨Or.inl rfl, c4_already_completed_skip "f" c4env (Or.inl rfl)⟩

/-- C5: an exception during processing (marker absent, lock held) yields a
failure result carrying the exception text, writes no completion marker
(the file's derived state is `pending` again: marker absent, lock
released), and — for every call, whatever the outcome — a lock that was
acquired is always released (with its artifact removed) by the `finally`
block. -/
theorem c5_exception_no_marker (file : String) (e : Env) (msg : String)
    (h1 : e.markerAtStart = false) (h2 : e.lockAcquired = true)
    (h3 : e.markerAfterLock = false) (hx : e.outcome = .exc msg) :
    ((process_single_file file e).1.success = false
      ∧ (process_single_file file e).1.error = some msg
      ∧ (process_single_file file e).2.markerWritten = false
      ∧ (process_single_file file e).2.lockTaken = true
      ∧ (process_single_file file e).2.lockReleased = true
      ∧ fileState (process_single_file file e).2.markerWritten false
          = .pending)
    ∧ (∀ e' : Env, (process_single_file file e').2.lockTaken = true
        → (process_single_file file e').2.lockReleased = true) := by
  constructor
  · simp [process_single_file, h1, h2, h3, hx, fileState]
  · intro e' h
    rw [psf_release_eq_taken, h]

theorem c5_exception_no_marker_witness :
    (c5env.markerAtStart = false ∧ c5env.lockAcquired = true
      ∧ c5env.markerAfterLock = false ∧ c5env.outcome = .exc "boom")
    ∧ (((process_single_file "f" c5env).1.success = false
      ∧ (process_single_file "f" c5env).1.error = some "boom"
      ∧ (process_single_file "f" c5env).2.markerWritten = false
      ∧ (process_single_file "f" c5env).2.lockTaken = true
      ∧ (process_single_file "f" c5env).2.lockReleased = true
      ∧ fileState (process_single_file "f" c5env).2.markerWritten false
          = .pending)
    ∧ (∀ e' : Env, (process_single_file "f" e').2.lockTaken = true
        → (process_single_file "f" e').2.lockReleased = true)) :=
  ⟨⟨rfl, rfl, rfl, rfl⟩,
   c5_exception_no_marker "f" c5env "boom" rfl rfl rfl rfl⟩

/-- C6 (counterexample to the claim as stated): the lock-contention result
has `success=False`, so the aggregate summary of `main`
(src/main_parallel.py lines 326-328) counts it among the *failed* files,
not the skipped ones, contradicting "it is not counted among the failed
files". -/
theorem c6_lock_contention_cex :
    classify (process_single_file "f" c6env).1 = Category.failed
      ∧ classify (process_single_file "f" c6env).1 ≠ Category.skipped
      ∧ (process_single_file "f" c6env).1.success = false := by
  decide

/-- C6 (amended): when the advisory lock cannot be acquired, the worker
returns at once a "could not acquire lock" result with `success=False` and
zero counts, performs no processing and writes no marker (hence no retry
within the run), and that result is counted among the *failed* files — not
the skipped ones — in the run's aggregate summary. -/
theorem c6_lock_contention_amended (file : String) (e : Env)
    (h1 : e.markerAtStart = false) (h2 : e.lockAcquired = false) :
    (process_single_file file e).1.success = false
      ∧ (process_single_file file e).1.error
          = some "Could not acquire lock (another process is handling)"
      ∧ (process_single_file file e).1.page_count = 0
      ∧ (process_single_file file e).1.revision_count = 0
      ∧ (process_single_file file e).2 = ⟨false, false, false, false⟩
      ∧ classify (process_single_file file e).1 = .failed := by
  simp [process_single_file, h1, h2, classify]

theorem c6_lock_contention_amended_witness :
    (c6env.markerAtStart = false ∧ c6env.lockAcquired = false)
    ∧ ((process_single_file "g" c6env).1.success = false
      ∧ (process_single_file "g" c6env).1.error
          = some "Could not acquire lock (another process is handling)"
      ∧ (process_single_file "g" c6env).1.page_count = 0
      ∧ (process_single_file "g" c6env).1.revision_count = 0
      ∧ (process_single_file "g" c6env).2 = ⟨false, false, false, false⟩
      ∧ classify (process_single_file "g" c6env).1 = .failed) :=
  ⟨⟨rfl, rfl⟩, c6_lock_contention_amended "g" c6env rfl rfl⟩

/-! ### Bot classification -/

/-- C7 (counterexample to the claim as stated): with the empty string as an
entry of the known-bots set and an empty display name (comment absent), the
display name exactly matches an entry of the set — the claimed iff demands
`true` — but `detect_bot` returns `false` through its initial
both-falsy early return. -/
theorem c7_detect_bot_cex :
    detect_bot [""] (some "") none = false
      ∧ spec_is_bot [""] (some "") none = true := by
  decide

/-- C7 (amended): provided the known-bots set contains no empty-string
entry, `detect_bot` agrees exactly with the spec's classification — bot iff
the display name exactly (case-sensitively) matches a known-bots entry, or
an indicator word occurs case-insensitively in the display name or the
comment; and with both display name and comment absent the flag is false. -/
theorem c7_detect_bot_amended (botList : List String)
    (username comment : Option String) (h : ¬ ("" ∈ botList)) :
    detect_bot botList username comment = spec_is_bot botList username comment
      ∧ detect_bot botList none none = false := by
  refine ⟨?_, rfl⟩
  by_cases hf : (pyStrFalsy username && pyStrFalsy comment) = true
  · rw [Bool.and_eq_true] at hf
    have hu : username.getD "" = "" := by
      have h' := hf.1
      rwa [pyStrFalsy, beq_iff_eq] at h'
    have hc : comment.getD "" = "" := by
      have h' := hf.2
      rwa [pyStrFalsy, beq_iff_eq] at h'
    have hbl : inBotList botList username = false := by
      cases username with
      | none => rfl
      | some u =>
          simp only [Option.getD] at hu
          subst hu
          simpa [inBotList] using h
    have hdet : detect_bot botList username comment = false := by
      rw [detect_bot, if_pos]
      rw [Bool.and_eq_true]
      exact ⟨hf.1, hf.2⟩
    rw [hdet, spec_is_bot, hbl, hu, hc]
    decide
  · have hf' : (pyStrFalsy username && pyStrFalsy comment) = false := by
      cases hb : (pyStrFalsy username && pyStrFalsy comment)
      · rfl
      · exact absurd hb hf
    rw [detect_bot, if_neg (by rw [hf']; exact Bool.false_ne_true),
      spec_is_bot]
    cases hbl : inBotList botList username
    · simp [hbl]
    · simp [hbl]

theorem c7_detect_bot_amended_witness :
    (¬ ("" ∈ ["SpamBot"]))
    ∧ (detect_bot ["SpamBot"] (some "Bot42") (some "auto-fix")
          = spec_is_bot ["SpamBot"] (some "Bot42") (some "auto-fix")
      ∧ detect_bot ["SpamBot"] none none = false) :=
  ⟨by decide,
   c7_detect_bot_amended ["SpamBot"] (some "Bot42") (some "auto-fix")
     (by decide)⟩

/-! ### Emitted record fields -/

/-- C8: the `RevisionRecord` dataclass has a `comment` field but no
`is_bot` field; the constructor call in
`src/processor/revision_processor.py` passes `is_bot` and omits the
required `comment` (so it raises `TypeError` on any item that reaches
record construction), and the constructor call in
`src/app/revision_processor.py` passes `comment` but no bot flag.  Hence no
emitted record carries both a bot flag and a free-text comment. -/
theorem c8_record_fields_mismatch :
    ("comment" ∈ revisionRecordFields ∧ ¬ ("is_bot" ∈ revisionRecordFields))
      ∧ ("is_bot" ∈ processorRecordKwargs
          ∧ ¬ ("comment" ∈ processorRecordKwargs))
      ∧ ("comment" ∈ appRecordKwargs ∧ ¬ ("is_bot" ∈ appRecordKwargs))
      ∧ processorRecordKwargs ≠ revisionRecordFields := by
  decide

/-! ### Concurrency: the lock-file recreation race -/

/-- C9: the mutual-exclusion property is right as stated — it is also
`FileLock`'s own docstring ("only one process handles a file at a time")
and spec §8's testable property — but the code does not provide it.
`FileLock.release` drops the flock (`LOCK_UN` + `close`) *before* unlinking
the lock path, and `acquire`'s `open(lock_path, "w")` creates a fresh
inode whenever the path is empty, so the flock is keyed by inode, not by
path.  This run is reachable: worker 0 fails mid-processing (no marker) and
releases; worker 1 flocks the old inode between worker 0's `LOCK_UN` and
its `unlink`; worker 2's `open` then creates a fresh inode and flocks it;
both workers 1 and 2 pass the marker re-check, process the same file
concurrently, and both terminate successfully (output and completion
marker written) — two successes for one file, while worker 0 reports a
failure, not a skip. -/
theorem c9_lock_race_double_success :
    FReach 3 false race21
      ∧ race21.pc 1 = LPc.done .succeeded
      ∧ race21.pc 2 = LPc.done .succeeded
      ∧ (1 : Fin 3) ≠ (2 : Fin 3)
      ∧ race21.pc 0 = LPc.done .failed := by
  refine ⟨?_, rfl, rfl, by decide, rfl⟩
  have h0 : FReach 3 false race0 := Relation.ReflTransGen.refl
  have h1 : FReach 3 false race1 := h0.tail (FStep.noMarker 0 race0 rfl rfl)
  have h2 : FReach 3 false race2 := h1.tail (FStep.openCreate 0 race1 rfl rfl)
  have h3 : FReach 3 false race3 := h2.tail (FStep.flockOk 0 0 race2 rfl
    (by intro j hne h; fin_cases j <;> exact absurd h (by decide)))
  have h4 : FReach 3 false race4 :=
    h3.tail (FStep.recheckMiss 0 race3 rfl rfl)
  have h5 : FReach 3 false race5 := h4.tail (FStep.finishExc 0 race4 rfl)
  have h6 : FReach 3 false race6 :=
    h5.tail (FStep.unlockGo 0 .failed race5 rfl)
  have h7 : FReach 3 false race7 := h6.tail (FStep.noMarker 1 race6 rfl rfl)
  have h8 : FReach 3 false race8 :=
    h7.tail (FStep.openExisting 1 0 race7 rfl rfl)
  have h9 : FReach 3 false race9 := h8.tail (FStep.flockOk 1 0 race8 rfl
    (by intro j hne h; fin_cases j <;> exact absurd h (by decide)))
  have h10 : FReach 3 false race10 :=
    h9.tail (FStep.unlinkGo 0 .failed race9 rfl)
  have h11 : FReach 3 false race11 :=
    h10.tail (FStep.noMarker 2 race10 rfl rfl)
  have h12 : FReach 3 false race12 :=
    h11.tail (FStep.openCreate 2 race11 rfl rfl)
  have h13 : FReach 3 false race13 := h12.tail (FStep.flockOk 2 1 race12 rfl
    (by intro j hne h; fin_cases j <;> exact absurd h (by decide)))
  have h14 : FReach 3 false race14 :=
    h13.tail (FStep.recheckMiss 1 race13 rfl rfl)
  have h15 : FReach 3 false race15 :=
    h14.tail (FStep.recheckMiss 2 race14 rfl rfl)
  have h16 : FReach 3 false race16 := h15.tail (FStep.finishOk 1 race15 rfl)
  have h17 : FReach 3 false race17 := h16.tail (FStep.finishOk 2 race16 rfl)
  have h18 : FReach 3 false race18 :=
    h17.tail (FStep.unlockGo 1 .succeeded race17 rfl)
  have h19 : FReach 3 false race19 :=
    h18.tail (FStep.unlinkGo 1 .succeeded race18 rfl)
  have h20 : FReach 3 false race20 :=
    h19.tail (FStep.unlockGo 2 .succeeded race19 rfl)
  exact h20.tail (FStep.unlinkGo 2 .succeeded race20 rfl)

end ProjectWiki
